import Mathlib

/-!
Verification development for the relaize backend (image restoration service).

The Python sources are shallowly embedded: pure control flow becomes Lean
functions, stores become explicit state passing, Python exceptions become
`Except` results classified by exception class, and external effects
(model inference, image decoding, the wall clock) become oracle parameters.
Each definition carries a doc comment naming the source file and symbol it
embeds.
-/

namespace Relaize

/-! ## app/models/catalog.py -/

/-- Embeds `ModelSpec` (app/models/catalog.py).  Only the fields read by the
pipeline runner and stage executor are kept (`id`, `name`, `kind`); the
remaining fields (description, repo, homepage, tags, default_device,
weight_hint, supports_prompt, supports_mask) are descriptive metadata never
consulted by the runner. -/
structure ModelSpec where
  id : String
  name : String
  kind : String
deriving DecidableEq, Repr

/-- Embeds `PipelineStageSpec` (app/models/catalog.py).  The `defaults`
parameter map is forwarded verbatim to the stage executor, which is an
oracle here, so it is not carried. -/
structure PipelineStageSpec where
  id : String
  name : String
  model_id : String
  optional : Bool := false
deriving DecidableEq, Repr

/-- Embeds `PipelineSpec` (app/models/catalog.py), keeping the fields read by
the runner (`id`, `name`, `stages`). -/
structure PipelineSpec where
  id : String
  name : String
  stages : List PipelineStageSpec
deriving DecidableEq, Repr

/-- Embeds `MODEL_CATALOG` (app/models/catalog.py), restricted to the fields
of `ModelSpec` above. -/
def MODEL_CATALOG : List ModelSpec :=
  [ { id := "RealESRGAN_RealESRGAN_x4plus_4x", name := "RealESRGAN 4x", kind := "superres" },
    { id := "HAT_Real_GAN_4x", name := "HAT Real 4x", kind := "superres" },
    { id := "SwinIR_realSR_BSRGAN_DFOWMFC_s64w8_SwinIR_L_GAN_4x", name := "SwinIR 实景 4x", kind := "superres" },
    { id := "DAT_light_2x", name := "DAT Light 2x", kind := "superres" },
    { id := "RealCUGAN_Conservative_2x", name := "RealCUGAN 2x", kind := "superres" },
    { id := "GFPGAN_v1.4", name := "GFPGAN v1.4", kind := "face" },
    { id := "PromptFix_diffusion", name := "PromptFix", kind := "prompt" },
    { id := "IOPaint_lama", name := "IOPaint (LaMa)", kind := "mask-inpaint" },
    { id := "CTSDG_iccv2021", name := "CTSDG", kind := "structure" },
    { id := "ShiftNet_pytorch", name := "Shift-Net", kind := "structure" },
    { id := "CRFill_iccv2021", name := "CR-Fill", kind := "structure" } ]

/-- Embeds `PIPELINE_CATALOG` (app/models/catalog.py). -/
def PIPELINE_CATALOG : List PipelineSpec :=
  [ { id := "superres_basic", name := "基础超分",
      stages := [ { id := "superres", name := "Final2x", model_id := "RealESRGAN_RealESRGAN_x4plus_4x" } ] },
    { id := "old_photo_restore", name := "老照片修复",
      stages := [ { id := "face", name := "GFPGAN", model_id := "GFPGAN_v1.4" },
                  { id := "superres", name := "RealESRGAN", model_id := "RealESRGAN_RealESRGAN_x4plus_4x" } ] },
    { id := "prompt_inpaint", name := "指令式修复",
      stages := [ { id := "prompt", name := "PromptFix", model_id := "PromptFix_diffusion" } ] },
    { id := "mask_inpaint", name := "掩膜修复",
      stages := [ { id := "mask", name := "IOPaint", model_id := "IOPaint_lama" } ] },
    { id := "structure_fill", name := "结构补全",
      stages := [ { id := "structure", name := "CTSDG", model_id := "CTSDG_iccv2021" },
                  { id := "texture", name := "Shift-Net", model_id := "ShiftNet_pytorch", optional := true },
                  { id := "context", name := "CR-Fill", model_id := "CRFill_iccv2021", optional := true } ] } ]

/-- Embeds `get_model_spec` (app/models/catalog.py): dictionary lookup in
`_MODEL_INDEX`, i.e. lookup by id over the catalog (ids are distinct). -/
def get_model_spec (model_id : String) : Option ModelSpec :=
  MODEL_CATALOG.find? (fun spec => spec.id == model_id)

/-- Embeds `get_pipeline_spec` (app/models/catalog.py). -/
def get_pipeline_spec (pipeline_id : String) : Option PipelineSpec :=
  PIPELINE_CATALOG.find? (fun spec => spec.id == pipeline_id)

/-! ## app/services/pipeline_runner.py -/

/-- Python truthiness for an optional string: `None` and the empty string are
falsy. -/
def pyTruthyStr (o : Option String) : Option String :=
  match o with
  | some s => if s = "" then none else some s
  | none => none

/-- Result of one `run_model_stage` call (app/services/model_wrappers.py),
classified by the exception class the Python call raises:
`notConfigured` is `StageNotConfiguredError` (missing weights, missing
dependency, missing required context field, or an unknown model id), and
`failed` is any other exception.  The executor itself is an oracle of this
type in the embedding. -/
inductive StageCall (Img : Type) where
  | ok (img : Img)
  | notConfigured (msg : String)
  | failed (msg : String)
deriving DecidableEq

/-- One entry of the per-stage trace, embedding `_build_stage_summary`
(app/services/pipeline_runner.py).  `duration_ms` is wall-clock time
(`time.perf_counter`) and is not modelled. -/
structure StageSummary where
  stage_id : String
  stage_name : String
  model_id : String
  model_label : String
  status : String
  message : Option String
deriving DecidableEq, Repr

/-- Embeds `_build_stage_summary` (app/services/pipeline_runner.py) minus the
wall-clock duration. -/
def build_stage_summary (stage : PipelineStageSpec) (model_id : String)
    (status : String) (message : Option String) : StageSummary :=
  { stage_id := stage.id
    stage_name := stage.name
    model_id := model_id
    model_label := match get_model_spec model_id with
      | some spec => spec.name
      | none => model_id
    status := status
    message := message }

/-- Truthiness of `stage_spec_model and stage_spec_model.kind == "superres"`. -/
def isSuperresSpec : Option ModelSpec → Bool
  | some spec => spec.kind == "superres"
  | none => false

/-- Embeds the per-stage model resolution of `run_pipeline`
(app/services/pipeline_runner.py lines 72-79): explicit per-stage override,
else the global `model_name` override when both the stage's catalog model and
the override are superres-kind, else the stage's catalog default. -/
def resolve_stage_model (stage_overrides : List (String × String))
    (fallback_model : Option String) (stage : PipelineStageSpec) : String :=
  let stage_spec_model := get_model_spec stage.model_id
  let m0 := pyTruthyStr (stage_overrides.lookup stage.id)
  let m1 : Option String :=
    if m0.isNone && (pyTruthyStr fallback_model).isSome && isSuperresSpec stage_spec_model then
      match pyTruthyStr fallback_model with
      | some fm =>
        match get_model_spec fm with
        | some fspec => if fspec.kind = "superres" then some fm else m0
        | none => m0
      | none => m0
    else m0
  match m1 with
  | some m => m
  | none => stage.model_id

/-- Outcome of the stage loop of `run_pipeline`
(app/services/pipeline_runner.py lines 71-96).  A propagated exception keeps
the trace accumulated so far (the Python local `executed_stages` at the time
of the raise): `raisedConfig` is a re-raised `StageNotConfiguredError`,
`raisedOther` any other exception. -/
inductive StagesOutcome (Img : Type) where
  | ok (image : Img) (trace : List StageSummary)
  | raisedConfig (msg : String) (trace : List StageSummary)
  | raisedOther (msg : String) (trace : List StageSummary)
deriving DecidableEq

/-- Embeds the stage loop of `run_pipeline` (app/services/pipeline_runner.py
lines 71-96).  On success the stage's output replaces the working image; on
`StageNotConfiguredError` a "skipped" entry is recorded and the error is
re-raised unless the stage is optional; on any other exception an "error"
entry is recorded and the exception propagates. -/
def run_stages {Img : Type} (exec : String → Img → StageCall Img)
    (stage_overrides : List (String × String)) (fallback_model : Option String) :
    List PipelineStageSpec → Img → List StageSummary → StagesOutcome Img
  | [], img, acc => .ok img acc
  | stage :: rest, img, acc =>
    let model_id := resolve_stage_model stage_overrides fallback_model stage
    match exec model_id img with
    | .ok img2 =>
      run_stages exec stage_overrides fallback_model rest img2
        (acc ++ [build_stage_summary stage model_id "executed" none])
    | .notConfigured msg =>
      let acc2 := acc ++ [build_stage_summary stage model_id "skipped" (some msg)]
      if stage.optional then run_stages exec stage_overrides fallback_model rest img acc2
      else .raisedConfig msg acc2
    | .failed msg =>
      .raisedOther msg (acc ++ [build_stage_summary stage model_id "error" (some msg)])

/-- Embeds `DEFAULT_PIPELINE_ID` (app/services/pipeline_runner.py). -/
def DEFAULT_PIPELINE_ID : String := "superres_basic"

/-- The fallthrough of `_resolve_pipeline` (app/services/pipeline_runner.py
lines 28-31): resolve the default pipeline, raising `RuntimeError` when the
catalog does not register it. -/
def resolve_pipeline_fallback : Except String PipelineSpec :=
  match get_pipeline_spec DEFAULT_PIPELINE_ID with
  | some fallback => .ok fallback
  | none => .error "Pipeline catalog 未注册默认管线 superres_basic"

/-- Embeds `_resolve_pipeline` (app/services/pipeline_runner.py): a truthy id
that names a registered pipeline resolves to it, anything else falls back to
the default pipeline. -/
def resolve_pipeline (pipeline_id : Option String) : Except String PipelineSpec :=
  match pyTruthyStr pipeline_id with
  | some pid =>
    match get_pipeline_spec pid with
    | some spec => .ok spec
    | none => resolve_pipeline_fallback
  | none => resolve_pipeline_fallback

/-- The summary dict built at the end of `run_pipeline`
(app/services/pipeline_runner.py lines 98-102). -/
structure RunSummary where
  pipeline_id : String
  pipeline_name : String
  stages : List StageSummary
deriving DecidableEq, Repr

/-- The fields of the `adjustments` mapping read by `run_pipeline`.
`target_scale`, `prompt`, `negative_prompt` and `mask_data` form the shared
context passed to the stage executor, which is an oracle here, so they are
not carried. -/
structure Adjustments where
  pipeline_id : Option String := none
  pipeline_stage_overrides : List (String × String) := []
  model_name : Option String := none

/-- Result of `run_pipeline` (app/services/pipeline_runner.py).
`stageConfigError` / `stageError` are exceptions propagating out of the stage
loop (keeping the trace recorded before the raise); `catalogError` is the
`RuntimeError` for a missing default pipeline. -/
inductive PipelineResult (Img : Type) where
  | ok (image : Img) (summary : RunSummary)
  | stageConfigError (msg : String) (trace : List StageSummary)
  | stageError (msg : String) (trace : List StageSummary)
  | catalogError (msg : String)
deriving DecidableEq

/-- Embeds `run_pipeline` (app/services/pipeline_runner.py). -/
def run_pipeline {Img : Type} (exec : String → Img → StageCall Img)
    (adjustments : Adjustments) (image_rgb : Img) : PipelineResult Img :=
  match resolve_pipeline adjustments.pipeline_id with
  | .error msg => .catalogError msg
  | .ok pipeline =>
    match run_stages exec adjustments.pipeline_stage_overrides adjustments.model_name
        pipeline.stages image_rgb [] with
    | .ok img trace =>
      .ok img { pipeline_id := pipeline.id, pipeline_name := pipeline.name, stages := trace }
    | .raisedConfig msg trace => .stageConfigError msg trace
    | .raisedOther msg trace => .stageError msg trace

/-! ## app/services/final2x_engine.py -/

/-- A Python exception, classified by the classes the engine's handlers
distinguish: `cudaOom` is `torch.cuda.OutOfMemoryError`, `runtimeError` is a
`RuntimeError` that is not a CUDA OOM subclass instance, `otherExc` any other
exception class. -/
inductive PyExc where
  | cudaOom (msg : String)
  | runtimeError (msg : String)
  | otherExc (msg : String)
deriving DecidableEq, Repr

/-- The message `str(exc)` of an exception. -/
def excMessage : PyExc → String
  | .cudaOom msg => msg
  | .runtimeError msg => msg
  | .otherExc msg => msg

/-- `charsLeadWith needle hay` is true when `hay` starts with `needle`. -/
def charsLeadWith : List Char → List Char → Bool
  | [], _ => true
  | _ :: _, [] => false
  | a :: as, b :: bs => a == b && charsLeadWith as bs

/-- `charsContain needle hay` is true when `needle` occurs contiguously in
`hay`. -/
def charsContain (needle : List Char) : List Char → Bool
  | [] => needle.isEmpty
  | b :: bs => charsLeadWith needle (b :: bs) || charsContain needle bs

/-- Python's `needle in hay` on strings. -/
def strContains (hay needle : String) : Bool :=
  charsContain needle.data hay.data

/-- Matches `except torch.cuda.OutOfMemoryError`. -/
def isCudaOomExc : PyExc → Bool
  | .cudaOom _ => true
  | _ => false

/-- Matches the `except RuntimeError` handlers' recovery condition
`"CUDA out of memory" in str(exc)` (app/services/final2x_engine.py
lines 154-158 and 170-174). -/
def isRuntimeCudaOom : PyExc → Bool
  | .runtimeError msg => strContains msg "CUDA out of memory"
  | _ => false

/-- Embeds `Final2xEngine.FALLBACK_TILE_SIZES`
(app/services/final2x_engine.py line 47). -/
def FALLBACK_TILE_SIZES : List Int :=
  [512, 384, 320, 288, 256, 224, 192, 160, 144, 128, 112, 96, 80, 72, 64]

/-- Truthiness of `self._current_tile_size` (`None` and `0` are falsy). -/
def tileTruthy : Option Int → Bool
  | some t => t != 0
  | none => false

/-- Embeds `Final2xEngine._fallback_tile_sizes`
(app/services/final2x_engine.py lines 179-195): `current_tile` is
`self._current_tile_size`, `config_tile_size` is `self.config.tile_size`. -/
def fallback_tile_sizes (current_tile : Option Int) (config_tile_size : Int) : List Int :=
  let max_tile : Int :=
    if tileTruthy current_tile then current_tile.getD 0
    else (FALLBACK_TILE_SIZES.foldl max 0) + 1
  let candidates0 : List Int :=
    if tileTruthy current_tile = false ∧ 0 < config_tile_size then [config_tile_size] else []
  FALLBACK_TILE_SIZES.foldl
    (fun candidates size =>
      if max_tile ≤ size then candidates
      else if candidates.contains size then candidates
      else candidates ++ [size])
    candidates0

/-- Embeds `Final2xEngine._recover_from_oom`
(app/services/final2x_engine.py lines 160-177).  `infer t` stands for
`self._model.inference_image(image)` after `self._load_model(t,
device_label=self._requested_device)`; the function returns both the list of
`(tile_size, device_label)` reload attempts and the final result.  After
exhausting every candidate the ORIGINAL exception is re-raised — there is no
CPU fallback. -/
def recover_from_oom {Img : Type} (infer : Option Int → Except PyExc Img)
    (requested_device : String) :
    List Int → PyExc → List (Int × String) × Except PyExc Img
  | [], original_exc => ([], .error original_exc)
  | tile_size :: rest, original_exc =>
    match infer (some tile_size) with
    | .ok img => ([(tile_size, requested_device)], .ok img)
    | .error e =>
      if isCudaOomExc e || isRuntimeCudaOom e then
        let r := recover_from_oom infer requested_device rest original_exc
        ((tile_size, requested_device) :: r.1, r.2)
      else
        ([(tile_size, requested_device)], .error e)

/-- Embeds `Final2xEngine._run_inference_with_retry`
(app/services/final2x_engine.py lines 147-158) together with the engine state
it reads: `infer current_tile` is the initial `inference_image` call on the
currently loaded model, and the recovery candidates are computed by
`_fallback_tile_sizes` from the same state.  Returns the reload attempts and
the result. -/
def run_inference_with_retry {Img : Type} (infer : Option Int → Except PyExc Img)
    (current_tile : Option Int) (config_tile_size : Int) (requested_device : String) :
    List (Int × String) × Except PyExc Img :=
  match infer current_tile with
  | .ok img => ([], .ok img)
  | .error e =>
    if isCudaOomExc e || isRuntimeCudaOom e then
      recover_from_oom infer requested_device
        (fallback_tile_sizes current_tile config_tile_size) e
    else ([], .error e)

/-- Python's `round` on a rational value: round half to even
(`int(round(x))` in the source). -/
def pyRound (q : ℚ) : ℤ :=
  let f := ⌊q⌋
  let r := q - (f : ℚ)
  if r < 1 / 2 then f
  else if 1 / 2 < r then f + 1
  else if f % 2 = 0 then f else f + 1

/-- The padding unit of `Final2xEngine.process` (`pad_unit = 16`). -/
def PAD_UNIT : Nat := 16

/-- Length of the Python slice `a[:stop]` over an axis of length `n`
(negative stops count from the end, out-of-range stops clamp). -/
def npSliceLen (n : Nat) (stop : ℤ) : Nat :=
  if stop < 0 then ((n : ℤ) + stop).toNat else min n stop.toNat

/-- Dimension contract of `cv2.resize(result, target_size)` with an explicit
`dsize` and no `fx`/`fy`: produces exactly the requested size, and raises for
a non-positive requested size. -/
def cv2_resize_dims (target_w target_h : ℤ) : Except String (Nat × Nat) :=
  if target_w ≤ 0 ∨ target_h ≤ 0 then .error "cv2 resize: invalid target size"
  else .ok (target_h.toNat, target_w.toNat)

/-- `scale = target_scale or self.config.target_scale`
(app/services/final2x_engine.py line 114): a `None` or zero override falls
back to the configured scale. -/
def resolved_scale (config_target_scale : ℚ) (target_scale : Option ℚ) : ℚ :=
  match target_scale with
  | some t => if t = 0 then config_target_scale else t
  | none => config_target_scale

/-- Embeds the dimension behaviour of `Final2xEngine.process`
(app/services/final2x_engine.py lines 79-120), tracking image shapes as
`(height, width)` pairs.  `infer_dims` gives the output shape of
`_run_inference_with_retry` on the padded input (`none` models an empty
result, raising `RuntimeError`).  Pads height/width up to a multiple of 16
(reflective border), crops the output back proportionally, then resizes to
`round(input_dims * scale)` when the sizes differ.  Pixel contents and the
engine lock are not modelled.  `crop_after_pad` is the crop step
(final2x_engine.py lines 107-112): proportional slice lengths via Python
slicing semantics. -/
def crop_after_pad (pad_h pad_w : Nat) (padded result0 : Nat × Nat) : Nat × Nat :=
  if pad_h ≠ 0 ∨ pad_w ≠ 0 then
    let scale_h : ℚ := (result0.1 : ℚ) / (padded.1 : ℚ)
    let scale_w : ℚ := (result0.2 : ℚ) / (padded.2 : ℚ)
    let crop_h : ℤ := (result0.1 : ℤ) - pyRound ((pad_h : ℚ) * scale_h)
    let crop_w : ℤ := (result0.2 : ℤ) - pyRound ((pad_w : ℚ) * scale_w)
    (npSliceLen result0.1 crop_h, npSliceLen result0.2 crop_w)
  else result0

/-- Embeds the dimension behaviour of the body of `Final2xEngine.process`
after the inference call (see `process`). -/
def process (infer_dims : Nat × Nat → Option (Nat × Nat))
    (config_target_scale : ℚ) (target_scale : Option ℚ)
    (input : Nat × Nat) : Except String (Nat × Nat) :=
  let height := input.1
  let width := input.2
  let pad_h := (PAD_UNIT - height % PAD_UNIT) % PAD_UNIT
  let pad_w := (PAD_UNIT - width % PAD_UNIT) % PAD_UNIT
  let padded : Nat × Nat := (height + pad_h, width + pad_w)
  match infer_dims padded with
  | none => .error "Final2x inference returned empty output"
  | some result0 =>
    let result1 := crop_after_pad pad_h pad_w padded result0
    let scale := resolved_scale config_target_scale target_scale
    if 0 < scale then
      let target_w : ℤ := pyRound ((width : ℚ) * scale)
      let target_h : ℤ := pyRound ((height : ℚ) * scale)
      if ((result1.2 : ℤ), (result1.1 : ℤ)) ≠ (target_w, target_h) then
        cv2_resize_dims target_w target_h
      else .ok result1
    else .ok result1

/-! ## app/schemas/tasks.py and app/services/tasks.py -/

/-- Embeds `TaskStatus` (app/schemas/tasks.py). -/
inductive TaskStatus where
  | pending
  | processing
  | completed
  | failed
  | cancelled
deriving DecidableEq, Repr

/-- Opaque payload of the `metrics` dict (named before/after/delta triples,
numeric contents irrelevant to the claims). -/
def MetricsMap : Type := List (String × Int)

instance : DecidableEq MetricsMap := by
  unfold MetricsMap
  infer_instance

instance : Repr MetricsMap := by
  unfold MetricsMap
  infer_instance

/-- Embeds `TaskDetail` (app/schemas/tasks.py).  Timestamps are abstract
ticks (`datetime.utcnow` is an oracle supplied as a `now` argument where the
source takes the clock); the `adjustments` dict is carried opaquely as the
`Adjustments` fields the pipeline reads plus nothing else is needed by the
claims, so it is kept as an optional opaque marker. -/
structure TaskDetail where
  id : String
  filename : String
  size : Option Nat := none
  content_type : Option String := none
  status : TaskStatus := .pending
  created_at : Nat := 0
  updated_at : Nat := 0
  processed_at : Option Nat := none
  source_url : Option String := none
  metrics : Option MetricsMap := none
  adjustments : Option (List (String × String)) := none
  message : Option String := none
deriving DecidableEq, Repr

/-- Embeds `TaskUpdate` (app/schemas/tasks.py).  The worker also passes a
`preview_url` keyword, which `TaskUpdate` does not declare and pydantic
silently drops, so it does not appear here. -/
structure TaskUpdate where
  status : Option TaskStatus := none
  metrics : Option MetricsMap := none
  message : Option String := none
  processed_at : Option Nat := none
  adjustments : Option (List (String × String)) := none
deriving DecidableEq, Repr

/-- Association-list store with overwrite `set` (`redis.set` on the task key,
or the relational upsert). -/
def storeSet (m : List (String × TaskDetail)) (k : String) (v : TaskDetail) :
    List (String × TaskDetail) :=
  (k, v) :: m.filter (fun p => p.1 != k)

/-- State of the storage backends of `TaskService` (app/services/tasks.py):
the key-value cache (`tasks:data:` keys), the optional relational mirror
(`db_session_factory`), and the FIFO queue (`tasks:queue`).  The sorted
index `tasks:index` is only read by listing/clearing, which no claim
touches, so it is not carried. -/
structure TaskStores where
  cache : List (String × TaskDetail)
  db : Option (List (String × TaskDetail))
  queue : List String
deriving DecidableEq, Repr

/-- Embeds `TaskService._save_task_to_cache` (app/services/tasks.py). -/
def save_task_to_cache (st : TaskStores) (task : TaskDetail) : TaskStores :=
  { st with cache := storeSet st.cache task.id task }

/-- Embeds `TaskService._save_task_to_db` (app/services/tasks.py): a no-op
without a session factory. -/
def save_task_to_db (st : TaskStores) (task : TaskDetail) : TaskStores :=
  match st.db with
  | none => st
  | some db => { st with db := some (storeSet db task.id task) }

/-- Embeds `TaskService._save_task` (app/services/tasks.py): cache write then
relational upsert. -/
def save_task (st : TaskStores) (task : TaskDetail) : TaskStores :=
  save_task_to_db (save_task_to_cache st task) task

/-- Embeds `TaskService.get_task` (app/services/tasks.py lines 162-169):
cache hit returns the deserialized record unchanged; on a miss the record is
fetched from the relational mirror and written back to the cache; a miss in
both raises `KeyError`.  Serialization round-trips are modelled as the
identity. -/
def get_task (st : TaskStores) (task_id : String) :
    Except String (TaskDetail × TaskStores) :=
  match st.cache.lookup task_id with
  | some task => .ok (task, st)
  | none =>
    match st.db with
    | none => .error "task not found in db"
    | some db =>
      match db.lookup task_id with
      | some task => .ok (task, save_task_to_cache st task)
      | none => .error "task not found in db"

/-- Embeds the payload merge of `TaskService.update_task`
(app/services/tasks.py lines 173-177): every non-`None` payload field
overwrites the stored field (`exclude_none=True`), and `updated_at` is
refreshed to the current clock. -/
def apply_update (task : TaskDetail) (payload : TaskUpdate) (now : Nat) : TaskDetail :=
  { task with
    status := payload.status.getD task.status
    metrics := match payload.metrics with
      | some m => some m
      | none => task.metrics
    message := match payload.message with
      | some m => some m
      | none => task.message
    processed_at := match payload.processed_at with
      | some p => some p
      | none => task.processed_at
    adjustments := match payload.adjustments with
      | some a => some a
      | none => task.adjustments
    updated_at := now }

/-- Embeds `TaskService.update_task` (app/services/tasks.py lines 171-179). -/
def update_task (st : TaskStores) (task_id : String) (payload : TaskUpdate)
    (now : Nat) : Except String (TaskDetail × TaskStores) :=
  match get_task st task_id with
  | .error e => .error e
  | .ok (task, st1) =>
    let updated := apply_update task payload now
    .ok (updated, save_task st1 updated)

/-- Embeds `TaskService.cancel_task` (app/services/tasks.py lines 244-248):
a status/message update only — the task id is NOT removed from the queue. -/
def cancel_task (st : TaskStores) (task_id : String) (now : Nat) :
    Except String (TaskDetail × TaskStores) :=
  update_task st task_id
    { status := some .cancelled, message := some "任务被用户取消" } now

/-! ## app/workers/processor.py -/

/-- Embeds `TaskWorker._process_task` (app/workers/processor.py lines 47-78).
`enh task_id` stands for `enhance_image(source_path, output_path)` (paths are
derived deterministically from the task).  Besides the updated stores, the
list of status transitions the worker wrote for this task is returned.  A
missing task logs a warning and returns.  The status is set to `processing`
unconditionally — the current status is NOT checked first.  On success the
task is completed with metrics and a completion timestamp; on an exception
from the try block it is failed with the exception message.  The `.error`
fall-through branches of the two inner `update_task` calls are unreachable
(the task was just fetched) and mirror an exception escaping to the `run`
loop. -/
def process_task (enh : String → Except String MetricsMap)
    (st : TaskStores) (task_id : String) (now : Nat) :
    TaskStores × List TaskStatus :=
  match get_task st task_id with
  | .error _ => (st, [])
  | .ok (task, st1) =>
    match update_task st1 task.id { status := some .processing } now with
    | .error _ => (st1, [])
    | .ok (_, st2) =>
      match enh task.id with
      | .ok metrics =>
        match update_task st2 task.id
            { status := some .completed, metrics := some metrics,
              processed_at := some now, message := some "处理完成" } now with
        | .ok (_, st3) => (st3, [.processing, .completed])
        | .error e =>
          match update_task st2 task.id { status := some .failed, message := some e } now with
          | .ok (_, st3) => (st3, [.processing, .failed])
          | .error _ => (st2, [.processing])
      | .error e =>
        match update_task st2 task.id { status := some .failed, message := some e } now with
        | .ok (_, st3) => (st3, [.processing, .failed])
        | .error _ => (st2, [.processing])

/-- Embeds `TaskWorker.run` (app/workers/processor.py lines 31-45):
blocking-pop from the queue head, stop on the `__shutdown__` sentinel,
otherwise process the task and continue with the next item.  `fuel` counts
loop iterations (the real loop runs until the stop event; an empty queue
models a `blpop` timeout and ends the drain).  The log pairs each processed
task id with the statuses written for it. -/
def worker_run (enh : String → Except String MetricsMap) (now : Nat) :
    Nat → TaskStores → TaskStores × List (String × TaskStatus)
  | 0, st => (st, [])
  | fuel + 1, st =>
    match st.queue with
    | [] => (st, [])
    | task_id :: rest =>
      if task_id = "__shutdown__" then ({ st with queue := rest }, [])
      else
        let p := process_task enh { st with queue := rest } task_id now
        let r := worker_run enh now fuel p.1
        (r.1, p.2.map (fun s => (task_id, s)) ++ r.2)

/-! ## app/services/processor.py -/

/-- Matches `except (torch.cuda.OutOfMemoryError, RuntimeError)` in
`enhance_image` (app/services/processor.py line 144). -/
def isCaughtBySrHandler : PyExc → Bool
  | .cudaOom _ => true
  | .runtimeError _ => true
  | .otherExc _ => false

/-- Python's `str.lower()`, character by character. -/
def pyLower (s : String) : String :=
  ⟨s.data.map Char.toLower⟩

/-- The handler's guard `"out of memory" in str(exc).lower()`
(app/services/processor.py lines 145-146). -/
def isOomMessage (e : PyExc) : Bool :=
  strContains (pyLower (excMessage e)) "out of memory"

/-- Embeds `enhance_image` (app/services/processor.py lines 124-167).
Oracles: `imread` is the decoded source image (`None` raises `ValueError`),
`sr_process` is `get_final2x_engine(...).process`, `apply_adjustment` is the
pure raster transform `_apply_adjustment_pipeline`, and `compute_metrics` is
`_compute_metrics` (floating point, abstracted).  When super-resolution is
enabled and `process` raises a memory-exhaustion error the original image is
kept as the base; any other caught exception is re-raised.  Color-space
conversions, the PNG write to `destination` and `torch.cuda.empty_cache()`
are side effects outside the data this models.  The result is the
`(before, after)` metrics pair fed to `_format_metrics`. -/
def enhance_image {Img M : Type} (imread : Option Img) (final2x_enabled : Bool)
    (sr_process : Img → Except PyExc Img) (apply_adjustment : Img → Img)
    (compute_metrics : Img → M) : Except PyExc (M × M) :=
  match imread with
  | none => .error (.otherExc "Unable to read image")
  | some original =>
    let base : Except PyExc Img :=
      if final2x_enabled then
        match sr_process original with
        | .ok img => .ok img
        | .error e =>
          if isCaughtBySrHandler e then
            if isOomMessage e then .ok original else .error e
          else .error e
      else .ok original
    match base with
    | .error e => .error e
    | .ok b =>
      let tweaked := apply_adjustment b
      .ok (compute_metrics original, compute_metrics tweaked)

/-! ## Helper lemmas -/

theorem run_stages_append {Img : Type} (exec : String → Img → StageCall Img)
    (ov : List (String × String)) (fb : Option String)
    (stages1 rest : List PipelineStageSpec) :
    ∀ (img : Img) (acc : List StageSummary) (img1 : Img) (tr1 : List StageSummary),
      run_stages exec ov fb stages1 img acc = .ok img1 tr1 →
      run_stages exec ov fb (stages1 ++ rest) img acc = run_stages exec ov fb rest img1 tr1 := by
  induction stages1 with
  | nil =>
    intro img acc img1 tr1 h
    simp only [run_stages] at h
    cases h
    simp
  | cons stage stages ih =>
    intro img acc img1 tr1 h
    simp only [List.cons_append]
    simp only [run_stages] at h ⊢
    cases hexec : exec (resolve_stage_model ov fb stage) img with
    | ok img2 =>
      rw [hexec] at h
      exact ih img2 _ img1 tr1 h
    | notConfigured msg =>
      rw [hexec] at h
      by_cases hopt : stage.optional = true
      · simp only [hopt, if_true] at h ⊢
        exact ih img _ img1 tr1 h
      · simp only [hopt, if_false] at h
        simp at h
    | failed msg =>
      rw [hexec] at h
      simp at h

/-! ## Claim theorems -/

/-- C1 (amended): for every pipeline run, if a stage that is not declared
optional raises a configuration error, the pipeline aborts immediately and
propagates the error after recording a trace entry for that stage whose
outcome is `skipped` (carrying the error message) — not `error`, which the
runner reserves for non-configuration exceptions — and no stage after the
failing one executes: the trace stops at the failing stage. -/
theorem required_stage_config_error_aborts {Img : Type}
    (exec : String → Img → StageCall Img) (adjustments : Adjustments)
    (pl : PipelineSpec) (stages1 post : List PipelineStageSpec)
    (stage : PipelineStageSpec) (img img1 : Img) (tr1 : List StageSummary) (msg : String)
    (hresolve : resolve_pipeline adjustments.pipeline_id = .ok pl)
    (hstages : pl.stages = stages1 ++ stage :: post)
    (hpre : run_stages exec adjustments.pipeline_stage_overrides adjustments.model_name
        stages1 img [] = .ok img1 tr1)
    (hexec : exec (resolve_stage_model adjustments.pipeline_stage_overrides
        adjustments.model_name stage) img1 = .notConfigured msg)
    (hreq : stage.optional = false) :
    run_pipeline exec adjustments img
      = .stageConfigError msg
          (tr1 ++ [build_stage_summary stage
              (resolve_stage_model adjustments.pipeline_stage_overrides
                adjustments.model_name stage) "skipped" (some msg)]) := by
  have hrun : run_stages exec adjustments.pipeline_stage_overrides adjustments.model_name
      (stages1 ++ stage :: post) img []
      = .raisedConfig msg
          (tr1 ++ [build_stage_summary stage
              (resolve_stage_model adjustments.pipeline_stage_overrides
                adjustments.model_name stage) "skipped" (some msg)]) := by
    rw [run_stages_append exec adjustments.pipeline_stage_overrides adjustments.model_name
      stages1 (stage :: post) img [] img1 tr1 hpre]
    simp only [run_stages]
    rw [hexec]
    simp [hreq]
  simp only [run_pipeline, hresolve, hstages, hrun]

/-- Counterexample to C1 as stated: a required stage (the single stage of the
default pipeline) raising a configuration error makes the run abort with the
error propagated, but the recorded trace entry has status "skipped", not
"error". -/
theorem required_stage_config_error_trace_is_skipped_cex :
    run_pipeline (fun _ _ => StageCall.notConfigured "Final2x 已被禁用，无法执行超分阶段")
        { pipeline_id := none } (0 : Nat)
      = .stageConfigError "Final2x 已被禁用，无法执行超分阶段"
          [{ stage_id := "superres", stage_name := "Final2x",
             model_id := "RealESRGAN_RealESRGAN_x4plus_4x",
             model_label := "RealESRGAN 4x", status := "skipped",
             message := some "Final2x 已被禁用，无法执行超分阶段" }]
    ∧ ("skipped" : String) ≠ "error" := by
  constructor
  · decide
  · decide

/-- Witness for C1's amended theorem at a concrete input. -/
theorem required_stage_config_error_aborts_witness :
    (resolve_pipeline (none : Option String)
        = .ok { id := "superres_basic", name := "基础超分",
                stages := [ { id := "superres", name := "Final2x",
                              model_id := "RealESRGAN_RealESRGAN_x4plus_4x" } ] })
    ∧ run_pipeline (fun _ _ => StageCall.notConfigured "no weights") { pipeline_id := none } (7 : Nat)
        = .stageConfigError "no weights"
            [build_stage_summary
              { id := "superres", name := "Final2x", model_id := "RealESRGAN_RealESRGAN_x4plus_4x" }
              (resolve_stage_model [] none
                { id := "superres", name := "Final2x", model_id := "RealESRGAN_RealESRGAN_x4plus_4x" })
              "skipped" (some "no weights")] :=
  ⟨rfl,
   required_stage_config_error_aborts (fun _ _ => StageCall.notConfigured "no weights")
     { pipeline_id := none }
     { id := "superres_basic", name := "基础超分",
       stages := [ { id := "superres", name := "Final2x",
                     model_id := "RealESRGAN_RealESRGAN_x4plus_4x" } ] }
     [] [] { id := "superres", name := "Final2x", model_id := "RealESRGAN_RealESRGAN_x4plus_4x" }
     7 7 [] "no weights" rfl rfl rfl rfl rfl⟩

/-- C2: for every pipeline run, if a stage declared optional raises a
configuration error, execution continues with the working image unchanged and
a `skipped` trace entry carrying the reason; when the remaining stages
succeed the whole run completes with the resolved pipeline's summary. -/
theorem optional_stage_config_error_skips {Img : Type}
    (exec : String → Img → StageCall Img) (adjustments : Adjustments)
    (pl : PipelineSpec) (stages1 post : List PipelineStageSpec)
    (stage : PipelineStageSpec) (img img1 img2 : Img)
    (tr1 tr2 : List StageSummary) (msg : String)
    (hresolve : resolve_pipeline adjustments.pipeline_id = .ok pl)
    (hstages : pl.stages = stages1 ++ stage :: post)
    (hpre : run_stages exec adjustments.pipeline_stage_overrides adjustments.model_name
        stages1 img [] = .ok img1 tr1)
    (hexec : exec (resolve_stage_model adjustments.pipeline_stage_overrides
        adjustments.model_name stage) img1 = .notConfigured msg)
    (hopt : stage.optional = true)
    (hpost : run_stages exec adjustments.pipeline_stage_overrides adjustments.model_name
        post img1
        (tr1 ++ [build_stage_summary stage
            (resolve_stage_model adjustments.pipeline_stage_overrides
              adjustments.model_name stage) "skipped" (some msg)])
        = .ok img2 tr2) :
    run_stages exec adjustments.pipeline_stage_overrides adjustments.model_name
        (stages1 ++ stage :: post) img []
      = run_stages exec adjustments.pipeline_stage_overrides adjustments.model_name
          post img1
          (tr1 ++ [build_stage_summary stage
              (resolve_stage_model adjustments.pipeline_stage_overrides
                adjustments.model_name stage) "skipped" (some msg)])
    ∧ run_pipeline exec adjustments img
        = .ok img2 { pipeline_id := pl.id, pipeline_name := pl.name, stages := tr2 } := by
  have hstep : run_stages exec adjustments.pipeline_stage_overrides adjustments.model_name
      (stages1 ++ stage :: post) img []
      = run_stages exec adjustments.pipeline_stage_overrides adjustments.model_name
          post img1
          (tr1 ++ [build_stage_summary stage
              (resolve_stage_model adjustments.pipeline_stage_overrides
                adjustments.model_name stage) "skipped" (some msg)]) := by
    rw [run_stages_append exec adjustments.pipeline_stage_overrides adjustments.model_name
      stages1 (stage :: post) img [] img1 tr1 hpre]
    simp only [run_stages]
    rw [hexec]
    simp [hopt]
  refine ⟨hstep, ?_⟩
  simp only [run_pipeline, hresolve, hstages, hstep, hpost]

/-- Witness for C2 at a concrete input: the optional "texture" stage of the
`structure_fill` pipeline is unconfigured while the other stages succeed. -/
theorem optional_stage_config_error_skips_witness :
    (resolve_pipeline (some "structure_fill")).isOk = true
    ∧ run_pipeline
        (fun m i => if m = "ShiftNet_pytorch" then StageCall.notConfigured "missing" else StageCall.ok (i + 1))
        { pipeline_id := some "structure_fill" } (0 : Nat)
      = .ok 2
          { pipeline_id := "structure_fill", pipeline_name := "结构补全",
            stages :=
              [build_stage_summary
                  { id := "structure", name := "CTSDG", model_id := "CTSDG_iccv2021" }
                  "CTSDG_iccv2021" "executed" none,
               build_stage_summary
                  { id := "texture", name := "Shift-Net", model_id := "ShiftNet_pytorch", optional := true }
                  "ShiftNet_pytorch" "skipped" (some "missing"),
               build_stage_summary
                  { id := "context", name := "CR-Fill", model_id := "CRFill_iccv2021", optional := true }
                  "CRFill_iccv2021" "executed" none] } :=
  ⟨by decide,
   (optional_stage_config_error_skips
      (fun m i => if m = "ShiftNet_pytorch" then StageCall.notConfigured "missing" else StageCall.ok (i + 1))
      { pipeline_id := some "structure_fill" }
      { id := "structure_fill", name := "结构补全",
        stages := [ { id := "structure", name := "CTSDG", model_id := "CTSDG_iccv2021" },
                    { id := "texture", name := "Shift-Net", model_id := "ShiftNet_pytorch", optional := true },
                    { id := "context", name := "CR-Fill", model_id := "CRFill_iccv2021", optional := true } ] }
      [{ id := "structure", name := "CTSDG", model_id := "CTSDG_iccv2021" }]
      [{ id := "context", name := "CR-Fill", model_id := "CRFill_iccv2021", optional := true }]
      { id := "texture", name := "Shift-Net", model_id := "ShiftNet_pytorch", optional := true }
      0 1 2
      [build_stage_summary { id := "structure", name := "CTSDG", model_id := "CTSDG_iccv2021" }
        "CTSDG_iccv2021" "executed" none]
      [build_stage_summary { id := "structure", name := "CTSDG", model_id := "CTSDG_iccv2021" }
        "CTSDG_iccv2021" "executed" none,
       build_stage_summary { id := "texture", name := "Shift-Net", model_id := "ShiftNet_pytorch", optional := true }
        "ShiftNet_pytorch" "skipped" (some "missing"),
       build_stage_summary { id := "context", name := "CR-Fill", model_id := "CRFill_iccv2021", optional := true }
        "CRFill_iccv2021" "executed" none]
      "missing" rfl rfl (by decide) (by decide) rfl (by decide)).2⟩

/-- C8: for every pipeline id that does not name a registered pipeline
(including an absent id), the runner falls back to the default pipeline, and
a successful run's summary carries the default pipeline's id and name. -/
theorem unknown_pipeline_falls_back {Img : Type} (exec : String → Img → StageCall Img)
    (adjustments : Adjustments) (img img1 : Img) (summary : RunSummary)
    (hunknown : ∀ p, pyTruthyStr adjustments.pipeline_id = some p → get_pipeline_spec p = none)
    (hrun : run_pipeline exec adjustments img = .ok img1 summary) :
    summary.pipeline_id = DEFAULT_PIPELINE_ID ∧ summary.pipeline_name = "基础超分" := by
  have hres : resolve_pipeline adjustments.pipeline_id
      = .ok { id := "superres_basic", name := "基础超分",
              stages := [ { id := "superres", name := "Final2x",
                            model_id := "RealESRGAN_RealESRGAN_x4plus_4x" } ] } := by
    simp only [resolve_pipeline]
    cases hp : pyTruthyStr adjustments.pipeline_id with
    | none => rfl
    | some p =>
      show (match get_pipeline_spec p with
            | some spec => Except.ok spec
            | none => resolve_pipeline_fallback) = _
      rw [hunknown p hp]
      rfl
  simp only [run_pipeline, hres] at hrun
  cases hstages : run_stages exec adjustments.pipeline_stage_overrides adjustments.model_name
      [ { id := "superres", name := "Final2x", model_id := "RealESRGAN_RealESRGAN_x4plus_4x" } ]
      img [] with
  | ok i tr =>
    rw [hstages] at hrun
    cases hrun
    exact ⟨rfl, rfl⟩
  | raisedConfig m tr =>
    rw [hstages] at hrun
    cases hrun
  | raisedOther m tr =>
    rw [hstages] at hrun
    cases hrun

/-- Witness for C8 at a concrete input: an unknown pipeline id with a
successful stage executor. -/
theorem unknown_pipeline_falls_back_witness :
    (∀ p, pyTruthyStr (some "does_not_exist") = some p → get_pipeline_spec p = none)
    ∧ (let summary : RunSummary :=
        { pipeline_id := "superres_basic", pipeline_name := "基础超分",
          stages := [build_stage_summary
            { id := "superres", name := "Final2x", model_id := "RealESRGAN_RealESRGAN_x4plus_4x" }
            "RealESRGAN_RealESRGAN_x4plus_4x" "executed" none] }
       summary.pipeline_id = DEFAULT_PIPELINE_ID ∧ summary.pipeline_name = "基础超分") := by
  constructor
  · decide
  · exact unknown_pipeline_falls_back (fun _ i => StageCall.ok (i + 1))
      { pipeline_id := some "does_not_exist" } (0 : Nat) 1 _
      (by intro p hp; simp [pyTruthyStr] at hp; subst hp; decide) (by decide)

theorem foldl_tile_dedup (mt : Int) :
    ∀ (l acc : List Int), l.Nodup →
      l.foldl (fun candidates size =>
          if mt ≤ size then candidates
          else if candidates.contains size then candidates
          else candidates ++ [size]) acc
        = acc ++ l.filter (fun s => decide (s < mt) && !(acc.contains s)) := by
  intro l
  induction l with
  | nil =>
    intro acc _
    simp
  | cons x xs ih =>
    intro acc hnd
    have hx : x ∉ xs := (List.nodup_cons.mp hnd).1
    have hxs : xs.Nodup := (List.nodup_cons.mp hnd).2
    simp only [List.foldl_cons, List.filter_cons]
    by_cases h1 : mt ≤ x
    · have hlt : ¬ (x < mt) := not_lt.mpr h1
      rw [if_pos h1, ih acc hxs]
      simp [hlt]
    · rw [if_neg h1]
      have hxlt : x < mt := not_le.mp h1
      by_cases h2 : x ∈ acc
      · have hc : acc.contains x = true := List.elem_eq_true_of_mem h2
        rw [if_pos hc, ih acc hxs]
        simp [hc, h2]
      · have hc : acc.contains x = false := by
          simp [List.elem_eq_mem]
          exact h2
        rw [if_neg (by simp [h2]), ih (acc ++ [x]) hxs]
        have hfilter : xs.filter (fun s => decide (s < mt) && !((acc ++ [x]).contains s))
            = xs.filter (fun s => decide (s < mt) && !(acc.contains s)) := by
          apply List.filter_congr
          intro a ha
          have hne : a ≠ x := fun he => hx (he ▸ ha)
          simp [List.elem_eq_mem, List.mem_append, hne]
        rw [hfilter]
        simp [hxlt, hc, h2, List.append_assoc]

theorem fallback_sizes_enabled (t cfg : Int) (ht : t ≠ 0) :
    fallback_tile_sizes (some t) cfg
      = FALLBACK_TILE_SIZES.filter (fun s => decide (s < t)) := by
  have htt : tileTruthy (some t) = true := by
    simp [tileTruthy, ht]
  unfold fallback_tile_sizes
  rw [htt]
  simp only [if_true, Option.getD_some, Bool.true_eq_false, false_and, if_false]
  rw [foldl_tile_dedup t FALLBACK_TILE_SIZES [] (by decide)]
  simp [List.elem_eq_mem]

theorem fallback_sizes_disabled (cfg : Int) (hcfg : 0 < cfg) :
    fallback_tile_sizes none cfg
      = cfg :: FALLBACK_TILE_SIZES.filter (fun s => decide (s ≠ cfg)) := by
  unfold fallback_tile_sizes
  have htt : tileTruthy none = false := rfl
  rw [htt]
  simp only [Bool.false_eq_true, if_false, and_true, if_pos hcfg, if_true, hcfg]
  rw [foldl_tile_dedup ((FALLBACK_TILE_SIZES.foldl max 0) + 1) FALLBACK_TILE_SIZES [cfg] (by decide)]
  have hcongr : FALLBACK_TILE_SIZES.filter
        (fun s => decide (s < (FALLBACK_TILE_SIZES.foldl max 0) + 1) && !(([cfg] : List Int).contains s))
      = FALLBACK_TILE_SIZES.filter (fun s => decide (s ≠ cfg)) := by
    apply List.filter_congr
    intro a ha
    have hbound : ∀ s ∈ FALLBACK_TILE_SIZES, s < (FALLBACK_TILE_SIZES.foldl max 0) + 1 := by decide
    have h1 : decide (a < (FALLBACK_TILE_SIZES.foldl max 0) + 1) = true :=
      decide_eq_true (hbound a ha)
    rw [h1, Bool.true_and]
    simp [List.elem_eq_mem]
  rw [hcongr]
  rfl

theorem recover_all_oom {Img : Type} (infer : Option Int → Except PyExc Img) (dev : String) :
    ∀ (cands : List Int) (e0 : PyExc),
      (∀ t ∈ cands, ∃ e, infer (some t) = .error e ∧ (isCudaOomExc e || isRuntimeCudaOom e) = true) →
      recover_from_oom infer dev cands e0 = (cands.map (fun t => (t, dev)), .error e0) := by
  intro cands
  induction cands with
  | nil =>
    intro e0 _
    rfl
  | cons t ts ih =>
    intro e0 hall
    obtain ⟨e, he, hoom⟩ := hall t (by simp)
    simp only [recover_from_oom, List.map_cons]
    rw [he]
    simp only [hoom, if_true]
    rw [ih e0 (fun x hx => hall x (List.mem_cons_of_mem t hx))]

/-- C3 (amended): when tiling was previously enabled with tile size `t`, the
OOM-recovery ladder is strictly descending and every candidate is strictly
smaller than `t`; when tiling was previously disabled, the first retry uses
the configured default tile size, followed by the fixed fallback entries
other than it — that tail is strictly descending among itself, but its head
may exceed the configured default (the candidates greater than or equal to
the configured default are not filtered out in this case). -/
theorem oom_tile_ladder_descent (t cfg : Int) :
    (0 < t →
      List.Pairwise (fun a b => b < a) (fallback_tile_sizes (some t) cfg) ∧
      ∀ x ∈ fallback_tile_sizes (some t) cfg, x < t) ∧
    (0 < cfg →
      fallback_tile_sizes none cfg
          = cfg :: FALLBACK_TILE_SIZES.filter (fun s => decide (s ≠ cfg)) ∧
      List.Pairwise (fun a b => b < a)
        (FALLBACK_TILE_SIZES.filter (fun s => decide (s ≠ cfg)))) := by
  have hpw : List.Pairwise (fun a b => b < a) FALLBACK_TILE_SIZES := by decide
  constructor
  · intro ht
    rw [fallback_sizes_enabled t cfg (ne_of_gt ht)]
    constructor
    · exact hpw.sublist (List.filter_sublist _)
    · intro x hxmem
      have := List.of_mem_filter hxmem
      exact of_decide_eq_true this
  · intro hcfg
    refine ⟨fallback_sizes_disabled cfg hcfg, ?_⟩
    exact hpw.sublist (List.filter_sublist _)

/-- Counterexample to C3 as stated: with tiling previously disabled and a
configured default tile size of 100 (smaller than most fixed fallback
entries), an all-OOM recovery attempts reloads at 100 then 512, so the
attempted tile sequence is not strictly descending. -/
theorem oom_tile_ladder_descent_cex :
    ((run_inference_with_retry
        (fun _ => (.error (.cudaOom "CUDA out of memory") : Except PyExc Unit))
        none 100 "cuda:0").1.map Prod.fst
      = [100, 512, 384, 320, 288, 256, 224, 192, 160, 144, 128, 112, 96, 80, 72, 64])
    ∧ ¬ List.Chain' (fun a b => b < a)
        ((run_inference_with_retry
            (fun _ => (.error (.cudaOom "CUDA out of memory") : Except PyExc Unit))
            none 100 "cuda:0").1.map Prod.fst) := by
  have heq : (run_inference_with_retry
        (fun _ => (.error (.cudaOom "CUDA out of memory") : Except PyExc Unit))
        none 100 "cuda:0").1.map Prod.fst
      = [100, 512, 384, 320, 288, 256, 224, 192, 160, 144, 128, 112, 96, 80, 72, 64] := by
    rfl
  refine ⟨heq, ?_⟩
  rw [heq]
  intro h
  rw [List.chain'_cons] at h
  omega

/-- Witness for C3's amended theorem at concrete inputs. -/
theorem oom_tile_ladder_descent_witness :
    ((0 : Int) < 256 ∧
      List.Pairwise (fun a b => b < a) (fallback_tile_sizes (some 256) 100) ∧
      ∀ x ∈ fallback_tile_sizes (some 256) 100, x < 256)
    ∧ ((0 : Int) < 100 ∧
      fallback_tile_sizes none 100
          = 100 :: FALLBACK_TILE_SIZES.filter (fun s => decide (s ≠ 100))) :=
  ⟨⟨by decide, (oom_tile_ladder_descent 256 100).1 (by decide)⟩,
   ⟨by decide, ((oom_tile_ladder_descent 256 100).2 (by decide)).1⟩⟩

/-- C4: when the initial inference attempt hits a memory-exhaustion error and
every candidate tile size of the recovery ladder still exhausts memory, the
engine re-raises the ORIGINAL out-of-memory exception; every fallback tier is
attempted before escalating, and each reload stays on the requested device
(no fallback to a non-accelerator device). -/
theorem oom_exhaustion_propagates_original {Img : Type}
    (infer : Option Int → Except PyExc Img) (current_tile : Option Int)
    (cfg : Int) (dev : String) (e0 : PyExc)
    (h0 : infer current_tile = .error e0)
    (hoom0 : (isCudaOomExc e0 || isRuntimeCudaOom e0) = true)
    (hall : ∀ t ∈ fallback_tile_sizes current_tile cfg,
        ∃ e, infer (some t) = .error e ∧ (isCudaOomExc e || isRuntimeCudaOom e) = true) :
    run_inference_with_retry infer current_tile cfg dev
      = ((fallback_tile_sizes current_tile cfg).map (fun t => (t, dev)), .error e0) := by
  unfold run_inference_with_retry
  rw [h0]
  simp only [hoom0, if_true]
  exact recover_all_oom infer dev (fallback_tile_sizes current_tile cfg) e0 hall

/-- Witness for C4 at concrete inputs: a CUDA OOM on every attempt. -/
theorem oom_exhaustion_propagates_original_witness :
    ((fun _ => (.error (.cudaOom "CUDA out of memory. Tried to allocate") : Except PyExc Unit))
        (some (256 : Int)) = .error (.cudaOom "CUDA out of memory. Tried to allocate"))
    ∧ run_inference_with_retry
        (fun _ => (.error (.cudaOom "CUDA out of memory. Tried to allocate") : Except PyExc Unit))
        (some 256) 0 "cuda:0"
      = ((fallback_tile_sizes (some 256) 0).map (fun t => (t, "cuda:0")),
         .error (.cudaOom "CUDA out of memory. Tried to allocate")) :=
  ⟨rfl,
   oom_exhaustion_propagates_original
     (fun _ => (.error (.cudaOom "CUDA out of memory. Tried to allocate") : Except PyExc Unit))
     (some 256) 0 "cuda:0" (.cudaOom "CUDA out of memory. Tried to allocate")
     rfl (by decide) (fun t _ => ⟨.cudaOom "CUDA out of memory. Tried to allocate", rfl, by decide⟩)⟩

/-- C5: for every input image (padded with reflective borders when its
height or width is not a multiple of 16 and cropped back after inference),
`process` returns dimensions equal to `round(input_dims * resolved_scale)`
exactly, with no residual border pixels, whatever output shape inference
produced; the resolved scale is the given override or the engine's
configured scale, and must be positive with positive rounded targets (the
final `cv2.resize` call rejects a non-positive size). -/
theorem process_output_dims (infer_dims : Nat × Nat → Option (Nat × Nat))
    (config_target_scale : ℚ) (target_scale : Option ℚ) (h w : Nat) (r : Nat × Nat)
    (hinfer : infer_dims (h + (PAD_UNIT - h % PAD_UNIT) % PAD_UNIT,
        w + (PAD_UNIT - w % PAD_UNIT) % PAD_UNIT) = some r)
    (hH : 0 < pyRound ((h : ℚ) * resolved_scale config_target_scale target_scale))
    (hW : 0 < pyRound ((w : ℚ) * resolved_scale config_target_scale target_scale))
    (hs : 0 < resolved_scale config_target_scale target_scale) :
    process infer_dims config_target_scale target_scale (h, w)
      = .ok ((pyRound ((h : ℚ) * resolved_scale config_target_scale target_scale)).toNat,
             (pyRound ((w : ℚ) * resolved_scale config_target_scale target_scale)).toNat) := by
  simp only [process]
  rw [hinfer]
  simp only [if_pos hs]
  split
  · unfold cv2_resize_dims
    rw [if_neg (by push_neg; exact ⟨hW, hH⟩)]
  · rename_i heq
    rw [not_not, Prod.mk.injEq] at heq
    obtain ⟨h2, h1⟩ := heq
    have hfst : (crop_after_pad ((PAD_UNIT - h % PAD_UNIT) % PAD_UNIT)
        ((PAD_UNIT - w % PAD_UNIT) % PAD_UNIT)
        (h + (PAD_UNIT - h % PAD_UNIT) % PAD_UNIT, w + (PAD_UNIT - w % PAD_UNIT) % PAD_UNIT) r).1
        = (pyRound ((h : ℚ) * resolved_scale config_target_scale target_scale)).toNat := by
      omega
    have hsnd : (crop_after_pad ((PAD_UNIT - h % PAD_UNIT) % PAD_UNIT)
        ((PAD_UNIT - w % PAD_UNIT) % PAD_UNIT)
        (h + (PAD_UNIT - h % PAD_UNIT) % PAD_UNIT, w + (PAD_UNIT - w % PAD_UNIT) % PAD_UNIT) r).2
        = (pyRound ((w : ℚ) * resolved_scale config_target_scale target_scale)).toNat := by
      omega
    rw [show (crop_after_pad ((PAD_UNIT - h % PAD_UNIT) % PAD_UNIT)
        ((PAD_UNIT - w % PAD_UNIT) % PAD_UNIT)
        (h + (PAD_UNIT - h % PAD_UNIT) % PAD_UNIT, w + (PAD_UNIT - w % PAD_UNIT) % PAD_UNIT) r)
        = ((pyRound ((h : ℚ) * resolved_scale config_target_scale target_scale)).toNat,
           (pyRound ((w : ℚ) * resolved_scale config_target_scale target_scale)).toNat)
      from Prod.ext hfst hsnd]

theorem pyRound_intCast (n : ℤ) : pyRound ((n : ℚ)) = n := by
  unfold pyRound
  simp only [Int.floor_intCast, sub_self]
  rw [if_pos (by norm_num)]

theorem c5_hyp_height : 0 < pyRound ((3 : ℚ) * resolved_scale 2 none) := by
  have h6 : (3 : ℚ) * resolved_scale 2 none = ((6 : ℤ) : ℚ) := by
    norm_num [resolved_scale]
  rw [h6, pyRound_intCast]
  norm_num

theorem c5_hyp_width : 0 < pyRound ((5 : ℚ) * resolved_scale 2 none) := by
  have h10 : (5 : ℚ) * resolved_scale 2 none = ((10 : ℤ) : ℚ) := by
    norm_num [resolved_scale]
  rw [h10, pyRound_intCast]
  norm_num

theorem c5_hyp_scale : 0 < resolved_scale 2 none := by
  norm_num [resolved_scale]

/-- Witness for C5 at a concrete input: a 3x5 image, configured scale 2 and
a 64x80 native inference output. -/
theorem process_output_dims_witness :
    ((fun _ => some ((64, 80) : Nat × Nat)) ((3 : Nat) + (PAD_UNIT - 3 % PAD_UNIT) % PAD_UNIT,
        (5 : Nat) + (PAD_UNIT - 5 % PAD_UNIT) % PAD_UNIT) = some (64, 80))
    ∧ 0 < pyRound ((3 : ℚ) * resolved_scale 2 none)
    ∧ 0 < resolved_scale 2 none
    ∧ process (fun _ => some (64, 80)) 2 none (3, 5)
        = .ok ((pyRound ((3 : ℚ) * resolved_scale 2 none)).toNat,
               (pyRound ((5 : ℚ) * resolved_scale 2 none)).toNat) :=
  ⟨rfl, c5_hyp_height, c5_hyp_scale,
   process_output_dims (fun _ => some (64, 80)) 2 none 3 5 (64, 80) rfl
     c5_hyp_height c5_hyp_width c5_hyp_scale⟩

theorem lookup_storeSet_self (m : List (String × TaskDetail)) (k : String) (v : TaskDetail) :
    (storeSet m k v).lookup k = some v := by
  simp [storeSet, List.lookup]

theorem save_task_to_db_queue (st : TaskStores) (t : TaskDetail) :
    (save_task_to_db st t).queue = st.queue := by
  unfold save_task_to_db
  cases st.db <;> rfl

theorem save_task_queue (st : TaskStores) (t : TaskDetail) :
    (save_task st t).queue = st.queue := by
  unfold save_task
  rw [save_task_to_db_queue]
  rfl

theorem save_task_cache (st : TaskStores) (t : TaskDetail) :
    (save_task st t).cache = storeSet st.cache t.id t := by
  unfold save_task save_task_to_db save_task_to_cache
  cases st.db <;> rfl

theorem apply_update_id (t : TaskDetail) (payload : TaskUpdate) (now : Nat) :
    (apply_update t payload now).id = t.id := rfl

theorem get_task_cache_hit (st : TaskStores) (task_id : String) (t : TaskDetail)
    (hc : st.cache.lookup task_id = some t) :
    get_task st task_id = .ok (t, st) := by
  unfold get_task
  rw [hc]

theorem update_task_cache_hit (st : TaskStores) (task_id : String) (t : TaskDetail)
    (payload : TaskUpdate) (now : Nat) (hc : st.cache.lookup task_id = some t) :
    update_task st task_id payload now
      = .ok (apply_update t payload now, save_task st (apply_update t payload now)) := by
  unfold update_task
  rw [get_task_cache_hit st task_id t hc]

theorem save_task_cache_lookup (st : TaskStores) (t : TaskDetail) (k : String)
    (hk : t.id = k) :
    (save_task st t).cache.lookup k = some t := by
  rw [save_task_cache, ← hk]
  exact lookup_storeSet_self st.cache t.id t

theorem process_task_spec (enh : String → Except String MetricsMap)
    (st : TaskStores) (task_id : String) (t : TaskDetail) (now : Nat)
    (hc : st.cache.lookup task_id = some t) (hid : t.id = task_id) :
    process_task enh st task_id now
      = match enh task_id with
        | .ok metrics =>
          (save_task (save_task st (apply_update t { status := some .processing } now))
             (apply_update (apply_update t { status := some .processing } now)
               { status := some .completed, metrics := some metrics,
                 processed_at := some now, message := some "处理完成" } now),
           [.processing, .completed])
        | .error e =>
          (save_task (save_task st (apply_update t { status := some .processing } now))
             (apply_update (apply_update t { status := some .processing } now)
               { status := some .failed, message := some e } now),
           [.processing, .failed]) := by
  have h1 : update_task st task_id { status := some .processing } now
      = .ok (apply_update t { status := some .processing } now,
             save_task st (apply_update t { status := some .processing } now)) :=
    update_task_cache_hit st task_id t _ now hc
  have hc2 : (save_task st (apply_update t { status := some .processing } now)).cache.lookup task_id
      = some (apply_update t { status := some .processing } now) :=
    save_task_cache_lookup st _ task_id (by rw [apply_update_id]; exact hid)
  unfold process_task
  simp only [get_task_cache_hit st task_id t hc]
  simp only [hid, h1]
  cases henh : enh task_id with
  | ok metrics =>
    simp only [update_task_cache_hit _ task_id _ _ now hc2]
  | error e =>
    simp only [update_task_cache_hit _ task_id _ _ now hc2]

theorem worker_run_cons (enh : String → Except String MetricsMap) (now fuel : Nat)
    (st : TaskStores) (task_id : String) (rest : List String)
    (hq : st.queue = task_id :: rest) (hsent : task_id ≠ "__shutdown__") :
    worker_run enh now (fuel + 1) st
      = ((worker_run enh now fuel (process_task enh { st with queue := rest } task_id now).1).1,
         (process_task enh { st with queue := rest } task_id now).2.map (fun s => (task_id, s))
           ++ (worker_run enh now fuel (process_task enh { st with queue := rest } task_id now).1).2) := by
  simp only [worker_run, hq]
  rw [if_neg hsent]

/-- C9: `get_task` is idempotent: two reads of the same task id with no
intervening writes return the same record and leave the stores where the
first read left them (the first read may populate the cache from the
relational mirror; the returned record's fields are never modified). -/
theorem get_task_idempotent (st : TaskStores) (task_id : String) (t : TaskDetail)
    (st1 : TaskStores)
    (hdbkeys : ∀ dbl, st.db = some dbl → ∀ v, dbl.lookup task_id = some v → v.id = task_id)
    (h : get_task st task_id = .ok (t, st1)) :
    get_task st1 task_id = .ok (t, st1) := by
  unfold get_task at h ⊢
  cases hc : st.cache.lookup task_id with
  | some t0 =>
    rw [hc] at h
    cases h
    rw [hc]
  | none =>
    simp only [hc] at h
    cases hdb : st.db with
    | none =>
      simp only [hdb] at h
      exact Except.noConfusion h
    | some dbl =>
      simp only [hdb] at h
      cases hl : dbl.lookup task_id with
      | none =>
        simp only [hl] at h
        exact Except.noConfusion h
      | some t0 =>
        simp only [hl, Except.ok.injEq, Prod.mk.injEq] at h
        obtain ⟨ht, hst1⟩ := h
        subst ht
        subst hst1
        have hid : t0.id = task_id := hdbkeys dbl hdb t0 hl
        have hlook : (save_task_to_cache st t0).cache.lookup task_id = some t0 := by
          show (storeSet st.cache t0.id t0).lookup task_id = some t0
          rw [hid]
          exact lookup_storeSet_self st.cache task_id t0
        simp only [hlook]

/-- Witness for C9 at a concrete store: a db-backed store whose cache misses,
so the first read populates the cache and the second read hits it. -/
theorem get_task_idempotent_witness :
    (get_task { cache := [], db := some [("t1", { id := "t1", filename := "a.png" })], queue := [] } "t1"
      = .ok ({ id := "t1", filename := "a.png" },
             { cache := [("t1", { id := "t1", filename := "a.png" })],
               db := some [("t1", { id := "t1", filename := "a.png" })], queue := [] }))
    ∧ get_task { cache := [("t1", { id := "t1", filename := "a.png" })],
                 db := some [("t1", { id := "t1", filename := "a.png" })], queue := [] } "t1"
      = .ok ({ id := "t1", filename := "a.png" },
             { cache := [("t1", { id := "t1", filename := "a.png" })],
               db := some [("t1", { id := "t1", filename := "a.png" })], queue := [] }) :=
  ⟨rfl,
   get_task_idempotent
     { cache := [], db := some [("t1", { id := "t1", filename := "a.png" })], queue := [] } "t1"
     { id := "t1", filename := "a.png" }
     { cache := [("t1", { id := "t1", filename := "a.png" })],
       db := some [("t1", { id := "t1", filename := "a.png" })], queue := [] }
     (by intro dbl hdbl v hv
         cases hdbl
         simp [List.lookup] at hv
         rw [← hv])
     rfl⟩

/-- C6 (amended): cancelling a task that is still pending sets its status to
`cancelled`, but the task id is NOT removed from the queue, and the worker
does not check the stored status before starting: when it later dequeues the
id it still transitions the task to `processing`. -/
theorem cancelled_pending_task_still_processed
    (st : TaskStores) (task_id : String) (t : TaskDetail) (rest : List String)
    (enh : String → Except String MetricsMap) (now1 now2 : Nat) (fuel : Nat)
    (hc : st.cache.lookup task_id = some t) (hid : t.id = task_id)
    (hq : st.queue = task_id :: rest) (hsent : task_id ≠ "__shutdown__") :
    ∃ t1 st1, cancel_task st task_id now1 = .ok (t1, st1)
      ∧ t1.status = .cancelled
      ∧ st1.queue = task_id :: rest
      ∧ (task_id, TaskStatus.processing) ∈ (worker_run enh now2 (fuel + 1) st1).2 := by
  have ht1 : cancel_task st task_id now1
      = .ok (apply_update t { status := some .cancelled, message := some "任务被用户取消" } now1,
             save_task st (apply_update t
               { status := some .cancelled, message := some "任务被用户取消" } now1)) :=
    update_task_cache_hit st task_id t _ now1 hc
  refine ⟨apply_update t { status := some .cancelled, message := some "任务被用户取消" } now1,
          save_task st (apply_update t
            { status := some .cancelled, message := some "任务被用户取消" } now1),
          ht1, rfl, ?_, ?_⟩
  · rw [save_task_queue, hq]
  · have hq1 : (save_task st (apply_update t
        { status := some .cancelled, message := some "任务被用户取消" } now1)).queue
        = task_id :: rest := by
      rw [save_task_queue, hq]
    have hid1 : (apply_update t
        { status := some .cancelled, message := some "任务被用户取消" } now1).id = task_id := by
      rw [apply_update_id]
      exact hid
    have hc1 : ({ save_task st (apply_update t
          { status := some .cancelled, message := some "任务被用户取消" } now1) with
          queue := rest } : TaskStores).cache.lookup task_id
        = some (apply_update t
            { status := some .cancelled, message := some "任务被用户取消" } now1) := by
      show (save_task st (apply_update t
          { status := some .cancelled, message := some "任务被用户取消" } now1)).cache.lookup task_id
        = some (apply_update t { status := some .cancelled, message := some "任务被用户取消" } now1)
      exact save_task_cache_lookup st _ task_id hid1
    rw [worker_run_cons enh now2 fuel _ task_id rest hq1 hsent]
    rw [process_task_spec enh _ task_id _ now2 hc1 hid1]
    cases henh : enh task_id <;> simp

/-- Counterexample to C6 as stated: a concrete pending task "t1" is
cancelled while its id is still queued; the status does become `cancelled`,
but the worker later dequeues the id, transitions the task to `processing`
and then overwrites the status with `completed`. -/
theorem cancelled_pending_task_still_processed_cex :
    (cancel_task { cache := [("t1", { id := "t1", filename := "a.png" })],
                   db := none, queue := ["t1"] } "t1" 1
      = .ok ({ id := "t1", filename := "a.png", status := .cancelled, updated_at := 1,
               message := some "任务被用户取消" },
             { cache := [("t1", { id := "t1", filename := "a.png", status := .cancelled,
                                  updated_at := 1, message := some "任务被用户取消" })],
               db := none, queue := ["t1"] }))
    ∧ (worker_run (fun _ => .ok ([] : MetricsMap)) 2 2
        { cache := [("t1", { id := "t1", filename := "a.png", status := .cancelled,
                             updated_at := 1, message := some "任务被用户取消" })],
          db := none, queue := ["t1"] }).2
      = [("t1", TaskStatus.processing), ("t1", TaskStatus.completed)] :=
  ⟨rfl, rfl⟩

/-- Witness for C6's amended theorem at a concrete store. -/
theorem cancelled_pending_task_still_processed_witness :
    (List.lookup "t1" [("t1", ({ id := "t1", filename := "a.png" } : TaskDetail))]
      = some { id := "t1", filename := "a.png" })
    ∧ ∃ t1 st1,
        cancel_task { cache := [("t1", { id := "t1", filename := "a.png" })],
                      db := none, queue := ["t1"] } "t1" 1 = .ok (t1, st1)
        ∧ t1.status = .cancelled
        ∧ st1.queue = "t1" :: []
        ∧ ("t1", TaskStatus.processing)
            ∈ (worker_run (fun _ => .ok ([] : MetricsMap)) 2 (1 + 1) st1).2 :=
  ⟨rfl,
   cancelled_pending_task_still_processed
     { cache := [("t1", { id := "t1", filename := "a.png" })], db := none, queue := ["t1"] }
     "t1" { id := "t1", filename := "a.png" } [] (fun _ => .ok ([] : MetricsMap)) 1 2 1
     rfl rfl rfl (by decide)⟩

/-- C7: when processing a dequeued task raises an exception, the worker sets
that task's status to `failed` with the exception's message attached, does
not terminate (the run loop equation continues on the remaining queue), and
proceeds to the next queued item. -/
theorem worker_failure_marks_failed_and_continues
    (st : TaskStores) (task_id : String) (t : TaskDetail) (rest : List String)
    (enh : String → Except String MetricsMap) (now : Nat) (fuel : Nat) (e : String)
    (hc : st.cache.lookup task_id = some t) (hid : t.id = task_id)
    (hq : st.queue = task_id :: rest) (hsent : task_id ≠ "__shutdown__")
    (henh : enh task_id = .error e) :
    ∃ u : TaskDetail,
      (process_task enh { st with queue := rest } task_id now).1.cache.lookup task_id = some u
      ∧ u.status = .failed ∧ u.message = some e
      ∧ (process_task enh { st with queue := rest } task_id now).2
          = [TaskStatus.processing, TaskStatus.failed]
      ∧ (process_task enh { st with queue := rest } task_id now).1.queue = rest
      ∧ worker_run enh now (fuel + 1) st
          = ((worker_run enh now fuel (process_task enh { st with queue := rest } task_id now).1).1,
             (process_task enh { st with queue := rest } task_id now).2.map (fun s => (task_id, s))
               ++ (worker_run enh now fuel
                    (process_task enh { st with queue := rest } task_id now).1).2) := by
  have hcq : ({ st with queue := rest } : TaskStores).cache.lookup task_id = some t := hc
  have hspec := process_task_spec enh { st with queue := rest } task_id t now hcq hid
  rw [henh] at hspec
  refine ⟨apply_update (apply_update t { status := some .processing } now)
            { status := some .failed, message := some e } now, ?_, rfl, rfl, ?_, ?_, ?_⟩
  · rw [hspec]
    exact save_task_cache_lookup _ _ task_id
      (by rw [apply_update_id, apply_update_id]; exact hid)
  · rw [hspec]
  · rw [hspec]
    simp only [save_task_queue]
  · exact worker_run_cons enh now fuel st task_id rest hq hsent

/-- Witness for C7 at a concrete store: the single queued task's enhancement
raises, the task ends up failed with the message, and the drain continues. -/
theorem worker_failure_marks_failed_and_continues_witness :
    ((fun _ => (.error "boom" : Except String MetricsMap)) "t1" = .error "boom")
    ∧ ∃ u : TaskDetail,
        (process_task (fun _ => .error "boom")
            { cache := [("t1", { id := "t1", filename := "a.png" })], db := none, queue := [] }
            "t1" 3).1.cache.lookup "t1" = some u
        ∧ u.status = .failed ∧ u.message = some "boom" :=
  ⟨rfl,
   match worker_failure_marks_failed_and_continues
      { cache := [("t1", { id := "t1", filename := "a.png" })], db := none, queue := ["t1"] }
      "t1" { id := "t1", filename := "a.png" } [] (fun _ => .error "boom") 3 0 "boom"
      rfl rfl rfl (by decide) rfl with
   | ⟨u, h1, h2, h3, _, _, _⟩ => ⟨u, h1, h2, h3⟩⟩

/-- C10: when super-resolution is enabled and the engine's `process` call
raises a memory-exhaustion error (torch OOM or a RuntimeError whose message
says out of memory), `enhance_image` catches it, keeps the original
un-upscaled image as the base for the adjustment pipeline, and still returns
the before/after metrics normally, so the task completes. -/
theorem enhance_image_oom_keeps_original {Img M : Type} (img0 : Img)
    (sr_process : Img → Except PyExc Img) (apply_adjustment : Img → Img)
    (compute_metrics : Img → M) (e : PyExc)
    (hsr : sr_process img0 = .error e)
    (hcaught : isCaughtBySrHandler e = true)
    (hoommsg : isOomMessage e = true) :
    enhance_image (some img0) true sr_process apply_adjustment compute_metrics
      = .ok (compute_metrics img0, compute_metrics (apply_adjustment img0)) := by
  unfold enhance_image
  simp only [hsr, hcaught, hoommsg, if_true]

/-- Witness for C10 at a concrete input: a propagated CUDA OOM error. -/
theorem enhance_image_oom_keeps_original_witness :
    ((fun _ => (.error (PyExc.cudaOom "CUDA out of memory. Tried to allocate") : Except PyExc Nat))
        (5 : Nat) = .error (PyExc.cudaOom "CUDA out of memory. Tried to allocate"))
    ∧ isOomMessage (PyExc.cudaOom "CUDA out of memory. Tried to allocate") = true
    ∧ enhance_image (some (5 : Nat)) true
        (fun _ => .error (PyExc.cudaOom "CUDA out of memory. Tried to allocate"))
        (fun i => i + 2) (fun i => i * 10)
      = .ok (50, 70) :=
  ⟨rfl, by decide,
   enhance_image_oom_keeps_original (5 : Nat)
     (fun _ => .error (PyExc.cudaOom "CUDA out of memory. Tried to allocate"))
     (fun i => i + 2) (fun i => i * 10)
     (PyExc.cudaOom "CUDA out of memory. Tried to allocate")
     rfl rfl (by decide)⟩

end Relaize
